import Mathlib

/-!
# Verification of the WebInteractMCP tool-invocation bridge

A shallow embedding of the `WebInteractSignalRService` TypeScript class
(the Connection Manager / Invocation Router of the library) together with
proofs of the behavioural properties stated in the specification.

The embedding models:
* JavaScript values (`JSValue`) as far as argument sanitization needs them;
* the service's mutable fields as an explicit `ServiceState` record;
* each method (`start`, `stop`, `scheduleReconnect`, `invokeTool`,
  the `onclose` / `onreconnected` handlers and the retry-timer callback)
  as a pure state transformer that also emits a trace of observable
  `SvcAction`s (transport connection attempts, timer scheduling, log lines);
* exceptions as `Except` results.
-/

/-- A JavaScript runtime value, as far as the invocation router inspects one:
`null`, `undefined`, primitives, arrays, plain objects (a list of fields)
and functions. -/
inductive JSValue where
  | null
  | undef
  | bool (b : Bool)
  | num (n : Int)
  | str (s : String)
  | arr (elems : List JSValue)
  | obj (fields : List (String × JSValue))
  | func

/-- JavaScript's `typeof` operator restricted to `JSValue`
(note `typeof null === 'object'` and `typeof [] === 'object'`). -/
def typeofJS : JSValue → String
  | .null => "object"
  | .undef => "undefined"
  | .bool _ => "boolean"
  | .num _ => "number"
  | .str _ => "string"
  | .arr _ => "object"
  | .obj _ => "object"
  | .func => "function"

/-- JavaScript's `Array.isArray`. -/
def isArrayJS : JSValue → Bool
  | .arr _ => true
  | _ => false

/-- `params === null || params === undefined`. -/
def isNullOrUndefined : JSValue → Bool
  | .null => true
  | .undef => true
  | _ => false

/-- Embedding of `WebInteractSignalRService.sanitizeParameters`:
null/undefined become `{}`; a value of `typeof === 'object'` that is not an
array passes through; anything else becomes `{}` (with a warning log). -/
def sanitizeParameters (params : JSValue) : JSValue :=
  if isNullOrUndefined params then
    .obj []
  else if typeofJS params == "object" && !isArrayJS params then
    params
  else
    .obj []

/-- A value is a mapping (a plain, non-array object). -/
def isMapping : JSValue → Bool
  | .obj _ => true
  | _ => false

/-- C5: Argument sanitization is total: every non-mapping value (arrays,
primitives, null, undefined, functions) is sent to the empty mapping `{}`,
every plain object passes through unchanged, and in particular
`sanitize(null) = {}`, `sanitize([1,2]) = {}`, `sanitize({a:1}) = {a:1}`. -/
theorem sanitizeParameters_total_spec :
    (∀ v : JSValue, isMapping v = false → sanitizeParameters v = .obj []) ∧
    (∀ fields, sanitizeParameters (.obj fields) = .obj fields) ∧
    sanitizeParameters .null = .obj [] ∧
    sanitizeParameters (.arr [.num 1, .num 2]) = .obj [] ∧
    sanitizeParameters (.obj [("a", .num 1)]) = .obj [("a", .num 1)] := by
  refine ⟨?_, ?_, rfl, rfl, rfl⟩
  · intro v hv
    cases v <;> simp_all [sanitizeParameters, isMapping, isNullOrUndefined,
      typeofJS, isArrayJS]
  · intro fields
    rfl

/-- Witness for `sanitizeParameters_total_spec`: the non-mapping clause
evaluated at the concrete value `true`. -/
theorem sanitizeParameters_total_spec_witness :
    sanitizeParameters (.bool true) = .obj [] :=
  sanitizeParameters_total_spec.1 (.bool true) rfl

/-! ## Connection manager state model

The mutable fields of `WebInteractSignalRService` and the state of the
underlying `signalR.HubConnection`, with every observable side effect
(transport calls, timer scheduling, log lines) recorded in a trace. -/

/-- `signalR.HubConnectionState`. -/
inductive HubConnectionState where
  | Disconnected
  | Connecting
  | Connected
  | Disconnecting
  | Reconnecting
deriving DecidableEq, Repr

/-- The service's `TransportOptions` configuration (fields recognised by the
connection manager; `logLevel`/`transportTypes` are carried but unused by the
reconnect logic). -/
structure TransportOptions where
  hubPath : String
  maxRetryAttempts : Nat
  baseRetryDelayMs : Nat
  enableLogging : Bool
  transportTypes : Nat
deriving DecidableEq, Repr

/-- The defaults applied in the service constructor. -/
def defaultTransportOptions : TransportOptions where
  hubPath := "/mcptools"
  maxRetryAttempts := 10
  baseRetryDelayMs := 1000
  enableLogging := false
  transportTypes := 1 ||| 2 ||| 4

/-- The mutable fields of a `WebInteractSignalRService` instance together
with the hub connection's state.  `hasConnection` models
`this.connection !== null`; `pendingRetryTimer` records whether a
`setTimeout` scheduled by `scheduleReconnect` is still pending (the service
never has more than one). -/
structure ServiceState where
  hasConnection : Bool
  connectionState : HubConnectionState
  reconnectAttempts : Nat
  isManuallyDisconnected : Bool
  pendingRetryTimer : Bool
deriving DecidableEq, Repr

/-- An observable side effect of the service. -/
inductive SvcAction where
  | attemptConnect
  | stopTransport
  | scheduleTimer (delayMs : Nat)
  | logInfo (msg : String)
  | logWarn (msg : String)
  | logError (msg : String)
deriving DecidableEq, Repr

/-- Embedding of `scheduleReconnect`: refuses (log only, no exception) when
the manual-disconnect flag is set or the attempt counter has reached
`maxRetryAttempts`; otherwise increments the counter and arms a timer for
`baseRetryDelayMs * 2 ^ (reconnectAttempts - 1)` milliseconds (no cap, no
jitter). -/
def scheduleReconnect (cfg : TransportOptions) (s : ServiceState) :
    ServiceState × List SvcAction :=
  if s.isManuallyDisconnected || decide (s.reconnectAttempts ≥ cfg.maxRetryAttempts) then
    (s, [.logError ("Max reconnection attempts (" ++ toString cfg.maxRetryAttempts
          ++ ") reached")])
  else
    let attempts := s.reconnectAttempts + 1
    let delay := cfg.baseRetryDelayMs * 2 ^ (attempts - 1)
    ({ s with reconnectAttempts := attempts, pendingRetryTimer := true },
     [.logInfo ("Scheduling reconnection attempt " ++ toString attempts
        ++ " in " ++ toString delay ++ "ms"),
      .scheduleTimer delay])

/-- Outcome of the transport-level `connection.start()` call, chosen by the
environment. -/
inductive ConnectOutcome where
  | ok
  | fail (msg : String)
deriving DecidableEq, Repr

/-- Embedding of `start()`.  Returns the new state, the call's result
(`Except` models a thrown error) and the emitted actions.  The guards are in
source order: no connection → throw; `Connected` → log and return;
`Connecting` → log and return; otherwise clear the manual flag, attempt the
transport connection, and on success zero the attempt counter, on failure
rethrow a wrapped error. -/
def startService (s : ServiceState) (outcome : ConnectOutcome) :
    ServiceState × Except String Unit × List SvcAction :=
  if s.hasConnection = false then
    (s, .error "SignalR connection not initialized", [])
  else if s.connectionState = .Connected then
    (s, .ok (), [.logInfo "SignalR connection already established"])
  else if s.connectionState = .Connecting then
    (s, .ok (), [.logInfo "SignalR connection attempt already in progress"])
  else
    let s1 := { s with isManuallyDisconnected := false }
    match outcome with
    | .ok =>
        ({ s1 with connectionState := .Connected, reconnectAttempts := 0 },
         .ok (),
         [.attemptConnect, .logInfo "SignalR connection started successfully"])
    | .fail msg =>
        ({ s1 with connectionState := .Disconnected },
         .error ("Failed to start SignalR connection: " ++ msg),
         [.attemptConnect, .logError "Error starting SignalR connection:"])

/-- Embedding of `stop()`: when a connection exists, set the
manual-disconnect flag and stop the transport (state → `Disconnected`);
otherwise do nothing.  A pending retry timer is *not* cancelled. -/
def stopService (s : ServiceState) : ServiceState × List SvcAction :=
  if s.hasConnection then
    ({ s with isManuallyDisconnected := true, connectionState := .Disconnected },
     [.stopTransport, .logInfo "SignalR connection stopped"])
  else
    (s, [])

/-- Embedding of the `onclose` handler body: log, then schedule a reconnect
only when the manual-disconnect flag is not set. -/
def oncloseHandler (cfg : TransportOptions) (s : ServiceState) (withError : Bool) :
    ServiceState × List SvcAction :=
  let logs : List SvcAction :=
    if withError then [.logError "SignalR connection closed with error:"]
    else [.logInfo "SignalR connection closed"]
  if !s.isManuallyDisconnected then
    let (s', as) := scheduleReconnect cfg s
    (s', logs ++ as)
  else
    (s, logs)

/-- Embedding of the `onreconnected` handler body: log and reset the
attempt counter to 0. -/
def onreconnectedHandler (s : ServiceState) : ServiceState × List SvcAction :=
  ({ s with reconnectAttempts := 0 },
   [.logInfo "SignalR reconnected with ID:"])

/-- Embedding of the retry-timer callback armed by `scheduleReconnect`:
when it fires it re-checks the manual-disconnect flag; if clear it calls
`start()`, and on a thrown error logs and calls `scheduleReconnect` again. -/
def retryTimerFire (cfg : TransportOptions) (s : ServiceState)
    (outcome : ConnectOutcome) : ServiceState × List SvcAction :=
  let s0 := { s with pendingRetryTimer := false }
  if !s0.isManuallyDisconnected then
    match startService s0 outcome with
    | (s1, .ok _, as) => (s1, as)
    | (s1, .error _, as) =>
        let (s2, as2) := scheduleReconnect cfg s1
        (s2, as ++ [.logError "Reconnection attempt failed:"] ++ as2)
  else
    (s0, [])

/-- The retry-delay function installed in the `HubConnectionBuilder`'s
`withAutomaticReconnect` options (`nextRetryDelayInMilliseconds`):
exponential backoff from `baseRetryDelayMs`, capped at 30000 ms, plus
`Math.random() * 1000` jitter.  `rand` models the `Math.random()` draw. -/
def nextRetryDelayInMilliseconds (baseRetryDelayMs : ℚ)
    (previousRetryCount : Nat) (rand : ℚ) : ℚ :=
  min (baseRetryDelayMs * 2 ^ previousRetryCount) 30000 + rand * 1000

/-! ## Events

Everything the environment can do to the service *other than* an explicit
`start()` call: transport close/reconnecting/reconnected callbacks, a
pending retry timer firing (with the environment's choice of connection
outcome), and a `stop()` call.  A retry-timer event when no timer is
pending is a no-op (timers fire only if armed, and the service arms at
most one at a time). -/

/-- An environment event delivered to the service (excluding `start()`). -/
inductive SvcEvent where
  | close (withError : Bool)
  | reconnecting
  | reconnected
  | retryFire (outcome : ConnectOutcome)
  | stopCall
deriving DecidableEq, Repr

/-- One event step of the service.  `close` first records the transport's
own transition to `Disconnected`, then runs the `onclose` handler;
`retryFire` is a no-op unless a timer is actually pending. -/
def svcStep (cfg : TransportOptions) (s : ServiceState) (e : SvcEvent) :
    ServiceState × List SvcAction :=
  match e with
  | .close withError =>
      oncloseHandler cfg { s with connectionState := .Disconnected } withError
  | .reconnecting =>
      ({ s with connectionState := .Reconnecting },
       [.logWarn "SignalR reconnecting..."])
  | .reconnected =>
      onreconnectedHandler { s with connectionState := .Connected }
  | .retryFire outcome =>
      if s.pendingRetryTimer then retryTimerFire cfg s outcome else (s, [])
  | .stopCall =>
      stopService s

/-- Run a sequence of environment events, accumulating the emitted actions. -/
def svcRun (cfg : TransportOptions) (s : ServiceState) :
    List SvcEvent → ServiceState × List SvcAction
  | [] => (s, [])
  | e :: es =>
      ((svcRun cfg (svcStep cfg s e).1 es).1,
       (svcStep cfg s e).2 ++ (svcRun cfg (svcStep cfg s e).1 es).2)

/-- The timer delays occurring in an action trace. -/
def emittedDelays (as : List SvcAction) : List Nat :=
  as.filterMap fun a =>
    match a with
    | .scheduleTimer d => some d
    | _ => none

/-- C4: `start()` is idempotent: with a connection present, if the channel is
`Connected` the call returns at once with the state (connection, counter,
manual flag) unchanged and no transport connection attempt; if the channel is
`Connecting` it only logs and returns, likewise without acting. -/
theorem start_idempotent (s : ServiceState) (o : ConnectOutcome)
    (hc : s.hasConnection = true) :
    (s.connectionState = .Connected →
      startService s o =
        (s, .ok (), [.logInfo "SignalR connection already established"])) ∧
    (s.connectionState = .Connecting →
      startService s o =
        (s, .ok (), [.logInfo "SignalR connection attempt already in progress"])) := by
  constructor
  · intro h
    simp [startService, hc, h]
  · intro h
    simp [startService, hc, h]

/-- Witness for `start_idempotent`: a connected service with counter 3. -/
theorem start_idempotent_witness :
    startService ⟨true, .Connected, 3, false, false⟩ .ok =
      (⟨true, .Connected, 3, false, false⟩, .ok (),
       [.logInfo "SignalR connection already established"]) :=
  (start_idempotent ⟨true, .Connected, 3, false, false⟩ .ok rfl).1 rfl

/-- C8: a `start()` call that proceeds to attempt connection (connection
present, channel neither `Connected` nor `Connecting`) ends `Connected` with
the reconnect counter reset to 0 when the transport connect succeeds, and
raises a wrapped connection error to the caller when it fails — without
scheduling any retry timer of its own. -/
theorem start_success_or_raises (s : ServiceState)
    (hc : s.hasConnection = true)
    (h1 : s.connectionState ≠ .Connected)
    (h2 : s.connectionState ≠ .Connecting) :
    ((startService s .ok).1.connectionState = .Connected ∧
     (startService s .ok).1.reconnectAttempts = 0 ∧
     (startService s .ok).2.1 = .ok ()) ∧
    (∀ msg, (startService s (.fail msg)).2.1 =
        .error ("Failed to start SignalR connection: " ++ msg) ∧
      emittedDelays (startService s (.fail msg)).2.2 = []) := by
  constructor
  · simp [startService, hc, h1, h2]
  · intro msg
    simp [startService, hc, h1, h2, emittedDelays]

/-- Witness for `start_success_or_raises`: a disconnected service. -/
theorem start_success_or_raises_witness :
    (startService ⟨true, .Disconnected, 4, true, false⟩ .ok).1.connectionState
      = .Connected ∧
    (startService ⟨true, .Disconnected, 4, true, false⟩
        (.fail "boom")).2.1 =
      .error "Failed to start SignalR connection: boom" := by
  have h := start_success_or_raises ⟨true, .Disconnected, 4, true, false⟩
    rfl (by decide) (by decide)
  exact ⟨h.1.1, by simpa using (h.2 "boom").1⟩

/-- C1 counterexample: with the default `baseRetryDelayMs = 1000`, the 6th
reconnect attempt scheduled after an unexpected close (manual flag clear,
counter 5) is armed after exactly 32000 ms — the delay computed by
`scheduleReconnect` has no 30000 ms cap and no jitter — while the claim's
interval for attempt 6 is [min(1000·2^5, 30000), min(1000·2^5, 30000)+1000)
= [30000, 31000), which excludes 32000. -/
theorem scheduleReconnect_delay_counterexample :
    emittedDelays (oncloseHandler defaultTransportOptions
        ⟨true, .Disconnected, 5, false, false⟩ false).2 = [32000] ∧
    min ((1000 : ℚ) * 2 ^ (6 - 1)) 30000 = 30000 ∧
    ¬ ((32000 : ℚ) < 30000 + 1000) := by
  refine ⟨rfl, by norm_num, by norm_num⟩

/-- C1 amended: on an unexpected channel close with the manual flag clear
(and the retry budget not exhausted), the reconnect attempt is scheduled
after exactly `baseRetryDelayMs * 2 ^ (attempt - 1)` ms — uncapped and
without jitter.  The formula `min(base · 2^k, 30000) + jitter`,
jitter ∈ [0, 1000), instead describes `nextRetryDelayInMilliseconds`, the
retry-delay callback the service installs in the connection builder's
automatic-reconnect options, where `k` is the 0-based previous-retry count. -/
theorem reconnect_delay_spec (cfg : TransportOptions) (s : ServiceState)
    (withError : Bool) (base : ℚ) (k : Nat) (rand : ℚ)
    (hflag : s.isManuallyDisconnected = false)
    (hlt : s.reconnectAttempts < cfg.maxRetryAttempts)
    (h0 : 0 ≤ rand) (h1 : rand < 1) :
    emittedDelays (oncloseHandler cfg s withError).2 =
      [cfg.baseRetryDelayMs * 2 ^ s.reconnectAttempts] ∧
    min (base * 2 ^ k) 30000 ≤ nextRetryDelayInMilliseconds base k rand ∧
    nextRetryDelayInMilliseconds base k rand < min (base * 2 ^ k) 30000 + 1000 := by
  refine ⟨?_, ?_, ?_⟩
  · cases withError <;>
      simp [oncloseHandler, scheduleReconnect, hflag, Nat.not_le.mpr hlt,
        emittedDelays]
  · have : (0 : ℚ) ≤ rand * 1000 := by positivity
    simp only [nextRetryDelayInMilliseconds]
    linarith
  · have : rand * 1000 < 1 * 1000 :=
      mul_lt_mul_of_pos_right h1 (by norm_num)
    simp only [nextRetryDelayInMilliseconds]
    linarith

/-- Witness for `reconnect_delay_spec`: the first attempt under the default
configuration, previous-retry count 5, `Math.random() = 1/2`. -/
theorem reconnect_delay_spec_witness :
    emittedDelays (oncloseHandler defaultTransportOptions
        ⟨true, .Disconnected, 0, false, false⟩ true).2 = [1000 * 2 ^ 0] ∧
    min ((1000 : ℚ) * 2 ^ 5) 30000 ≤
      nextRetryDelayInMilliseconds 1000 5 (1 / 2) ∧
    nextRetryDelayInMilliseconds 1000 5 (1 / 2) <
      min ((1000 : ℚ) * 2 ^ 5) 30000 + 1000 :=
  reconnect_delay_spec defaultTransportOptions
    ⟨true, .Disconnected, 0, false, false⟩ true 1000 5 (1 / 2)
    rfl (by norm_num [defaultTransportOptions]) (by norm_num) (by norm_num)

/-- A trace contains neither a retry-timer arming nor a transport
connection attempt. -/
def noReconnectActions (as : List SvcAction) : Prop :=
  ∀ a ∈ as, (∀ d, a ≠ .scheduleTimer d) ∧ a ≠ .attemptConnect

/-- With the manual-disconnect flag set, a single environment event leaves
the flag set and neither schedules a retry nor attempts to connect. -/
theorem svcStep_manual (cfg : TransportOptions) (s : ServiceState) (e : SvcEvent)
    (h : s.isManuallyDisconnected = true) :
    (svcStep cfg s e).1.isManuallyDisconnected = true ∧
    noReconnectActions (svcStep cfg s e).2 := by
  cases e with
  | close withError =>
      cases withError <;>
        simp [svcStep, oncloseHandler, h, noReconnectActions]
  | reconnecting =>
      simp [svcStep, noReconnectActions, h]
  | reconnected =>
      simp [svcStep, onreconnectedHandler, h, noReconnectActions]
  | retryFire outcome =>
      by_cases hp : s.pendingRetryTimer = true <;>
        simp [svcStep, retryTimerFire, h, hp, noReconnectActions]
  | stopCall =>
      by_cases hc : s.hasConnection = true <;>
        simp [svcStep, stopService, h, hc, noReconnectActions]

/-- With the manual-disconnect flag set, no sequence of environment events
(no explicit `start()` among them) ever schedules a retry or attempts to
connect, and the flag stays set. -/
theorem svcRun_manual (cfg : TransportOptions) (s : ServiceState)
    (evs : List SvcEvent) (h : s.isManuallyDisconnected = true) :
    (svcRun cfg s evs).1.isManuallyDisconnected = true ∧
    noReconnectActions (svcRun cfg s evs).2 := by
  induction evs generalizing s with
  | nil =>
      exact ⟨h, by simp [svcRun, noReconnectActions]⟩
  | cons e es ih =>
      obtain ⟨h1, h2⟩ := svcStep_manual cfg s e h
      obtain ⟨h3, h4⟩ := ih (svcStep cfg s e).1 h1
      refine ⟨h3, ?_⟩
      intro a ha
      rw [svcRun] at ha
      rcases List.mem_append.mp ha with hmem | hmem
      · exact h2 a hmem
      · exact h4 a hmem

/-- C2: after `stop()` (which, with a connection present, sets the
manual-disconnect flag) and with no new `start()`, no reconnect attempt is
ever scheduled or performed: every subsequent environment event — a channel
close, a retry timer that was already pending when `stop()` was called, a
further `stop()` — leaves the flag set, arms no timer and attempts no
connection. -/
theorem stop_suppresses_reconnect (cfg : TransportOptions)
    (s0 s : ServiceState) (evs : List SvcEvent)
    (hc : s0.hasConnection = true)
    (h : s.isManuallyDisconnected = true) :
    (stopService s0).1.isManuallyDisconnected = true ∧
    (svcRun cfg s evs).1.isManuallyDisconnected = true ∧
    noReconnectActions (svcRun cfg s evs).2 := by
  refine ⟨?_, svcRun_manual cfg s evs h⟩
  simp [stopService, hc]

/-- Witness for `stop_suppresses_reconnect`: stop a connected service with a
retry timer pending, then deliver an unexpected close and let the pending
timer fire. -/
theorem stop_suppresses_reconnect_witness :
    (stopService ⟨true, .Connected, 2, false, true⟩).1.isManuallyDisconnected
        = true ∧
    (svcRun defaultTransportOptions
        (stopService ⟨true, .Connected, 2, false, true⟩).1
        [.close true, .retryFire .ok]).1.isManuallyDisconnected = true ∧
    noReconnectActions (svcRun defaultTransportOptions
        (stopService ⟨true, .Connected, 2, false, true⟩).1
        [.close true, .retryFire .ok]).2 :=
  stop_suppresses_reconnect defaultTransportOptions
    ⟨true, .Connected, 2, false, true⟩
    (stopService ⟨true, .Connected, 2, false, true⟩).1
    [.close true, .retryFire .ok] rfl rfl

/-- Once the attempt counter has reached `maxRetryAttempts` and no retry
timer is pending, a single environment event other than a transport-level
`onreconnected` keeps the counter at the bound, arms no timer and attempts
no connection. -/
theorem svcStep_exhausted (cfg : TransportOptions) (s : ServiceState)
    (e : SvcEvent)
    (hmax : cfg.maxRetryAttempts ≤ s.reconnectAttempts)
    (hpend : s.pendingRetryTimer = false)
    (hne : e ≠ .reconnected) :
    cfg.maxRetryAttempts ≤ (svcStep cfg s e).1.reconnectAttempts ∧
    (svcStep cfg s e).1.pendingRetryTimer = false ∧
    noReconnectActions (svcStep cfg s e).2 := by
  cases e with
  | close withError =>
      by_cases hm : s.isManuallyDisconnected = true <;> cases withError <;>
        simp [svcStep, oncloseHandler, scheduleReconnect, hm, hmax, hpend,
          noReconnectActions]
  | reconnecting =>
      simp [svcStep, noReconnectActions, hmax, hpend]
  | reconnected =>
      exact absurd rfl hne
  | retryFire outcome =>
      simp [svcStep, hpend, hmax, noReconnectActions]
  | stopCall =>
      by_cases hc : s.hasConnection = true <;>
        simp [svcStep, stopService, hc, hmax, hpend, noReconnectActions]

/-- Exhaustion is permanent without an explicit `start()`: from a state with
the counter at the bound and no pending timer, no sequence of environment
events that contains no transport `onreconnected` (impossible on a closed
channel) ever arms a timer or attempts a connection. -/
theorem svcRun_exhausted (cfg : TransportOptions) (s : ServiceState)
    (evs : List SvcEvent)
    (hmax : cfg.maxRetryAttempts ≤ s.reconnectAttempts)
    (hpend : s.pendingRetryTimer = false)
    (hev : SvcEvent.reconnected ∉ evs) :
    cfg.maxRetryAttempts ≤ (svcRun cfg s evs).1.reconnectAttempts ∧
    (svcRun cfg s evs).1.pendingRetryTimer = false ∧
    noReconnectActions (svcRun cfg s evs).2 := by
  induction evs generalizing s with
  | nil =>
      exact ⟨hmax, hpend, by simp [svcRun, noReconnectActions]⟩
  | cons e es ih =>
      have hne : e ≠ .reconnected := fun habs => hev (habs ▸ List.mem_cons_self e es)
      have hev' : SvcEvent.reconnected ∉ es := fun habs =>
        hev (List.mem_cons_of_mem e habs)
      obtain ⟨h1, h2, h3⟩ := svcStep_exhausted cfg s e hmax hpend hne
      obtain ⟨h4, h5, h6⟩ := ih (svcStep cfg s e).1 h1 h2 hev'
      refine ⟨h4, h5, ?_⟩
      intro a ha
      rw [svcRun] at ha
      rcases List.mem_append.mp ha with hmem | hmem
      · exact h3 a hmem
      · exact h6 a hmem

/-- C3: the reconnect-attempt counter increments by exactly one for each
scheduled retry; when the counter has reached `maxRetryAttempts` the
exhausted `scheduleReconnect` call returns normally having only logged the
exhaustion (its return type carries no exception, so nothing is thrown to a
caller), and from an exhausted state with no pending timer no later
environment event — `onreconnected` excluded, as it cannot fire on a closed
channel — ever arms a retry timer or attempts a connection again. -/
theorem reconnectAttempts_spec (cfg : TransportOptions) (s : ServiceState) :
    (s.isManuallyDisconnected = false →
      s.reconnectAttempts < cfg.maxRetryAttempts →
      (scheduleReconnect cfg s).1.reconnectAttempts = s.reconnectAttempts + 1 ∧
      emittedDelays (scheduleReconnect cfg s).2 =
        [cfg.baseRetryDelayMs * 2 ^ s.reconnectAttempts]) ∧
    (cfg.maxRetryAttempts ≤ s.reconnectAttempts →
      scheduleReconnect cfg s =
        (s, [.logError ("Max reconnection attempts ("
              ++ toString cfg.maxRetryAttempts ++ ") reached")])) ∧
    (∀ evs : List SvcEvent, cfg.maxRetryAttempts ≤ s.reconnectAttempts →
      s.pendingRetryTimer = false → SvcEvent.reconnected ∉ evs →
      noReconnectActions (svcRun cfg s evs).2) := by
  refine ⟨?_, ?_, ?_⟩
  · intro hflag hlt
    simp [scheduleReconnect, hflag, Nat.not_le.mpr hlt, emittedDelays]
  · intro hmax
    simp [scheduleReconnect, hmax]
  · intro evs hmax hpend hev
    exact (svcRun_exhausted cfg s evs hmax hpend hev).2.2

/-- Witness for `reconnectAttempts_spec`: under the default configuration,
the increment clause at counter 0; the exhaustion clause at counter 10;
the permanence clause over a close followed by a spurious timer event. -/
theorem reconnectAttempts_spec_witness :
    (scheduleReconnect defaultTransportOptions
        ⟨true, .Disconnected, 0, false, false⟩).1.reconnectAttempts = 0 + 1 ∧
    scheduleReconnect defaultTransportOptions
        ⟨true, .Disconnected, 10, false, false⟩ =
      (⟨true, .Disconnected, 10, false, false⟩,
       [.logError "Max reconnection attempts (10) reached"]) ∧
    noReconnectActions (svcRun defaultTransportOptions
        ⟨true, .Disconnected, 10, false, false⟩
        [.close false, .retryFire .ok]).2 := by
  refine ⟨((reconnectAttempts_spec defaultTransportOptions
      ⟨true, .Disconnected, 0, false, false⟩).1 rfl (by norm_num
        [defaultTransportOptions])).1, ?_, ?_⟩
  · have h := (reconnectAttempts_spec defaultTransportOptions
      ⟨true, .Disconnected, 10, false, false⟩).2.1 (by norm_num
        [defaultTransportOptions])
    simpa [defaultTransportOptions] using h
  · exact (reconnectAttempts_spec defaultTransportOptions
      ⟨true, .Disconnected, 10, false, false⟩).2.2
      [.close false, .retryFire .ok]
      (by norm_num [defaultTransportOptions]) rfl (by decide)

/-! ## Invocation router

`invokeTool` and the `InvokeTool` channel handler from the source, with the
MCP controller abstracted as a response the environment chooses, and — for
the catalog-lookup claim — a controller modelled from the spec (the
controller and registry sources are not under src/). -/

/-- Modelled from the spec: the `CallToolResult` envelope from `types.ts`
(not under src/) — the uniform `InvocationResult` shape
`{success, content?, error?}` of §3. -/
structure CallToolResult where
  success : Bool
  content : Option String
  error : Option String
deriving DecidableEq, Repr

/-- Modelled from the spec: `createErrorResult` from `types.ts` (not under
src/) — converts an error into the uniform failure envelope
`{success:false, error:<message>}`. -/
def createErrorResult (msg : String) : CallToolResult :=
  { success := false, content := none, error := some msg }

/-- A `ToolStartConfig` as built by `invokeTool`: the tool id and the
sanitized parameters. -/
structure ToolStartConfig where
  toolId : String
  params : JSValue

/-- The MCP controller's response to `start([toolConfig])`, chosen by the
environment: the returned promise either rejects or resolves with a list of
results (an entry may be `undefined`, modelled as `none`). -/
inductive ControllerResponse where
  | throws (msg : String)
  | returns (results : List (Option CallToolResult))

/-- Embedding of `invokeTool`: throws when the controller reference is
absent; otherwise sanitizes the parameters, delegates a single-item batch to
the controller, takes the first result, substitutes an error envelope when
it is missing, and converts a controller rejection into an error envelope. -/
def invokeTool (hasController : Bool)
    (controllerStart : List ToolStartConfig → ControllerResponse)
    (toolName : String) (params : JSValue) : Except String CallToolResult :=
  if hasController = false then
    .error "MCP Controller not set. Call setMCPController() first."
  else
    let sanitizedParams := sanitizeParameters params
    let toolConfig : ToolStartConfig := ⟨toolName, sanitizedParams⟩
    match controllerStart [toolConfig] with
    | .throws msg => .ok (createErrorResult msg)
    | .returns results =>
        match results.head? with
        | some (some result) => .ok result
        | some none => .ok (createErrorResult "No result returned from tool execution")
        | none => .ok (createErrorResult "No result returned from tool execution")

/-- Embedding of the `InvokeTool` channel handler: call `invokeTool` and
catch any thrown error, converting it with `createErrorResult`. -/
def invokeToolHandler (hasController : Bool)
    (controllerStart : List ToolStartConfig → ControllerResponse)
    (toolName : String) (args : JSValue) : CallToolResult :=
  match invokeTool hasController controllerStart toolName args with
  | .ok r => r
  | .error e => createErrorResult e

/-- The `InvokeTool` handler acting on the whole service state: the handler
body never reads or writes the connection, so the state passes through. -/
def invokeToolEvent (s : ServiceState) (hasController : Bool)
    (controllerStart : List ToolStartConfig → ControllerResponse)
    (toolName : String) (args : JSValue) : ServiceState × CallToolResult :=
  (s, invokeToolHandler hasController controllerStart toolName args)

/-- Modelled from the spec: `WebInteractMCPController.start` (§4.3 steps
2–3) — the controller source is not under src/.  Each tool id is resolved in
the Catalog; an absent id yields `{success:false, error:"tool not found"}`
without invoking the Execution Engine; a present id is delegated to the
engine.  Also returns the number of engine invocations. -/
def modelControllerStart (catalog : List String)
    (engine : ToolStartConfig → CallToolResult)
    (tools : List ToolStartConfig) :
    List (Option CallToolResult) × Nat :=
  (tools.map fun t =>
      some (if t.toolId ∈ catalog then engine t
            else createErrorResult "tool not found"),
   tools.countP fun t => decide (t.toolId ∈ catalog))

/-- C6: invoking a tool whose id is absent from the catalog returns the
`{success:false, error:"tool not found"}` envelope with a non-empty error
message, the Execution Engine is never invoked, and the connection state is
left unchanged by the failed invocation. -/
theorem invoke_unknown_tool (catalog : List String)
    (engine : ToolStartConfig → CallToolResult) (s : ServiceState)
    (toolName : String) (args : JSValue)
    (habs : toolName ∉ catalog) :
    (invokeToolEvent s true
        (fun ts => .returns (modelControllerStart catalog engine ts).1)
        toolName args).2 = createErrorResult "tool not found" ∧
    (createErrorResult "tool not found").success = false ∧
    (createErrorResult "tool not found").error = some "tool not found" ∧
    "tool not found" ≠ "" ∧
    (modelControllerStart catalog engine
        [⟨toolName, sanitizeParameters args⟩]).2 = 0 ∧
    (invokeToolEvent s true
        (fun ts => .returns (modelControllerStart catalog engine ts).1)
        toolName args).1 = s := by
  refine ⟨?_, rfl, rfl, by decide, ?_, rfl⟩
  · simp [invokeToolEvent, invokeToolHandler, invokeTool,
      modelControllerStart, habs]
  · simp [modelControllerStart, habs]

/-- Witness for `invoke_unknown_tool`: a one-tool catalog and the request
`InvokeTool("nonexistent", {})`. -/
theorem invoke_unknown_tool_witness :
    (invokeToolEvent ⟨true, .Connected, 0, false, false⟩ true
        (fun ts => .returns (modelControllerStart ["highlight"]
          (fun _ => ⟨true, some "ok", none⟩) ts).1)
        "nonexistent" (.obj [])).2 = createErrorResult "tool not found" ∧
    (modelControllerStart ["highlight"] (fun _ => ⟨true, some "ok", none⟩)
        [⟨"nonexistent", sanitizeParameters (.obj [])⟩]).2 = 0 :=
  ⟨(invoke_unknown_tool ["highlight"] (fun _ => ⟨true, some "ok", none⟩)
      ⟨true, .Connected, 0, false, false⟩ "nonexistent" (.obj [])
      (by decide)).1,
   (invoke_unknown_tool ["highlight"] (fun _ => ⟨true, some "ok", none⟩)
      ⟨true, .Connected, 0, false, false⟩ "nonexistent" (.obj [])
      (by decide)).2.2.2.2.1⟩

/-- C7: every error raised while delegating an inbound `InvokeTool` request
— the controller reference being absent included — is caught at the handler
boundary and converted into the `{success:false, error:<message>}` envelope;
the handler is a total function into result envelopes, so no fault ever
crosses the channel unhandled. -/
theorem invokeTool_errors_caught (hasController : Bool)
    (controllerStart : List ToolStartConfig → ControllerResponse)
    (toolName : String) (args : JSValue) :
    (∀ m, invokeTool hasController controllerStart toolName args = .error m →
      invokeToolHandler hasController controllerStart toolName args
        = createErrorResult m ∧ (createErrorResult m).success = false ∧
        (createErrorResult m).error = some m) ∧
    (hasController = false →
      invokeToolHandler hasController controllerStart toolName args =
        createErrorResult
          "MCP Controller not set. Call setMCPController() first.") ∧
    (hasController = true →
      ∀ m, controllerStart [⟨toolName, sanitizeParameters args⟩] = .throws m →
        invokeToolHandler hasController controllerStart toolName args
          = createErrorResult m) := by
  refine ⟨?_, ?_, ?_⟩
  · intro m hm
    exact ⟨by simp [invokeToolHandler, hm], rfl, rfl⟩
  · intro h
    simp [invokeToolHandler, invokeTool, h]
  · intro h m hm
    simp [invokeToolHandler, invokeTool, h, hm]

/-- Witness for `invokeTool_errors_caught`: the missing-controller case and
a rejecting controller, both at `InvokeTool("t", null)`. -/
theorem invokeTool_errors_caught_witness :
    invokeToolHandler false (fun _ => .returns []) "t" .null =
      createErrorResult
        "MCP Controller not set. Call setMCPController() first." ∧
    invokeToolHandler true (fun _ => .throws "engine exploded") "t" .null =
      createErrorResult "engine exploded" :=
  ⟨(invokeTool_errors_caught false (fun _ => .returns []) "t" .null).2.1 rfl,
   (invokeTool_errors_caught true (fun _ => .throws "engine exploded")
      "t" .null).2.2 rfl "engine exploded" rfl⟩

/-- C10: when the controller's batch call resolves with a list whose first
element is missing (empty list or an `undefined` entry), `invokeTool`
returns — rather than throwing or yielding `undefined` — the well-formed
envelope `{success:false, error:"No result returned from tool execution"}`,
so the request still yields exactly one result envelope. -/
theorem invokeTool_degenerate_result
    (controllerStart : List ToolStartConfig → ControllerResponse)
    (toolName : String) (args : JSValue)
    (rs : List (Option CallToolResult))
    (hret : controllerStart [⟨toolName, sanitizeParameters args⟩]
      = .returns rs)
    (hdeg : rs.head? = none ∨ rs.head? = some none) :
    invokeTool true controllerStart toolName args =
      .ok (createErrorResult "No result returned from tool execution") ∧
    invokeToolHandler true controllerStart toolName args =
      createErrorResult "No result returned from tool execution" := by
  have h1 : invokeTool true controllerStart toolName args =
      .ok (createErrorResult "No result returned from tool execution") := by
    rcases hdeg with h | h <;> simp [invokeTool, hret, h]
  exact ⟨h1, by simp [invokeToolHandler, h1]⟩

/-- Witness for `invokeTool_degenerate_result`: a controller resolving with
the empty list. -/
theorem invokeTool_degenerate_result_witness :
    invokeTool true (fun _ => .returns []) "t" .null =
      .ok (createErrorResult "No result returned from tool execution") :=
  (invokeTool_degenerate_result (fun _ => .returns []) "t" .null []
    rfl (Or.inl rfl)).1

/-! ## Transport-type mapping -/

namespace TransportType

/-- Modelled from the spec: the library's `TransportType` bit flags from
`types.ts` (not under src/) — `transportPreference` is "a bitmask selecting
among available low-level transports", with one distinct bit per transport,
matching SignalR's `HttpTransportType` encoding. -/
def WebSockets : Nat := 1

/-- Modelled from the spec: see `TransportType.WebSockets`. -/
def ServerSentEvents : Nat := 2

/-- Modelled from the spec: see `TransportType.WebSockets`. -/
def LongPolling : Nat := 4

end TransportType

namespace HttpTransportType

/-- `signalR.HttpTransportType.None`. -/
def None : Nat := 0

/-- `signalR.HttpTransportType.WebSockets`. -/
def WebSockets : Nat := 1

/-- `signalR.HttpTransportType.ServerSentEvents`. -/
def ServerSentEvents : Nat := 2

/-- `signalR.HttpTransportType.LongPolling`. -/
def LongPolling : Nat := 4

end HttpTransportType

/-- Embedding of `mapTransportType`: starts from `None` and ORs in the
SignalR flag for each of the three transport bits set in the input
(JavaScript `if (x & flag)` tests the bitwise AND for a nonzero value). -/
def mapTransportType (transportType : Nat) : Nat :=
  let result := HttpTransportType.None
  let result := if transportType &&& TransportType.WebSockets ≠ 0
    then result ||| HttpTransportType.WebSockets else result
  let result := if transportType &&& TransportType.ServerSentEvents ≠ 0
    then result ||| HttpTransportType.ServerSentEvents else result
  let result := if transportType &&& TransportType.LongPolling ≠ 0
    then result ||| HttpTransportType.LongPolling else result
  result

/-- `t &&& 2^i` is nonzero exactly when bit `i` of `t` is set. -/
theorem and_two_pow_ne_zero (t i : Nat) :
    (t &&& 2 ^ i ≠ 0) ↔ t.testBit i = true := by
  rw [Nat.and_two_pow]
  cases h : t.testBit i <;>
    simp [h, (pow_pos (by norm_num : (0 : Nat) < 2) i).ne']

/-- `mapTransportType` in terms of the three low bits of its argument. -/
theorem mapTransportType_ofBits (t : Nat) :
    mapTransportType t =
      ((if t.testBit 0 then 1 else 0) ||| (if t.testBit 1 then 2 else 0) |||
        (if t.testBit 2 then 4 else 0) : Nat) := by
  have h0 : (t &&& TransportType.WebSockets ≠ 0) ↔ t.testBit 0 = true := by
    rw [show TransportType.WebSockets = 2 ^ 0 from rfl]
    exact and_two_pow_ne_zero t 0
  have h1 : (t &&& TransportType.ServerSentEvents ≠ 0) ↔ t.testBit 1 = true := by
    rw [show TransportType.ServerSentEvents = 2 ^ 1 from rfl]
    exact and_two_pow_ne_zero t 1
  have h2 : (t &&& TransportType.LongPolling ≠ 0) ↔ t.testBit 2 = true := by
    rw [show TransportType.LongPolling = 2 ^ 2 from rfl]
    exact and_two_pow_ne_zero t 2
  simp only [mapTransportType, HttpTransportType.None,
    HttpTransportType.WebSockets, HttpTransportType.ServerSentEvents,
    HttpTransportType.LongPolling]
  by_cases b0 : t.testBit 0 = true <;> by_cases b1 : t.testBit 1 = true <;>
    by_cases b2 : t.testBit 2 = true <;>
      simp [h0, h1, h2, b0, b1, b2]

/-- Oring two three-bit selections commutes with building the selections. -/
theorem ofBits_lor (x0 x1 x2 y0 y1 y2 : Bool) :
    ((if (x0 || y0) then 1 else 0) ||| (if (x1 || y1) then 2 else 0) |||
        (if (x2 || y2) then 4 else 0) : Nat) =
      ((if x0 then 1 else 0) ||| (if x1 then 2 else 0) |||
        (if x2 then 4 else 0) : Nat) |||
      ((if y0 then 1 else 0) ||| (if y1 then 2 else 0) |||
        (if y2 then 4 else 0) : Nat) := by
  cases x0 <;> cases x1 <;> cases x2 <;> cases y0 <;> cases y1 <;> cases y2 <;>
    rfl

/-- C9: `mapTransportType` is a bitmask homomorphism: it maps a bitwise OR
of preferences to the OR of the mapped preferences, maps the empty
preference to `None`, and depends only on the WebSockets, ServerSentEvents
and LongPolling bits of its argument. -/
theorem mapTransportType_hom :
    (∀ a b : Nat, mapTransportType (a ||| b) =
        mapTransportType a ||| mapTransportType b) ∧
    mapTransportType 0 = HttpTransportType.None ∧
    (∀ t : Nat, mapTransportType t =
        mapTransportType (t &&& (TransportType.WebSockets |||
          TransportType.ServerSentEvents ||| TransportType.LongPolling))) := by
  refine ⟨?_, rfl, ?_⟩
  · intro a b
    rw [mapTransportType_ofBits, mapTransportType_ofBits,
      mapTransportType_ofBits]
    simp only [Nat.testBit_lor]
    exact ofBits_lor _ _ _ _ _ _
  · intro t
    rw [mapTransportType_ofBits, mapTransportType_ofBits]
    have : (TransportType.WebSockets ||| TransportType.ServerSentEvents |||
        TransportType.LongPolling) = 7 := rfl
    rw [this]
    simp [Nat.testBit_land, show Nat.testBit 7 0 = true from rfl,
      show Nat.testBit 7 1 = true from rfl,
      show Nat.testBit 7 2 = true from rfl]
